import Mathlib

/-!
latte-panel: GSettings helpers, clock locations and clock location tiles.

A shallow embedding of

* `mate-panel/panel-gsettings.c` (key-name validation, string-list helpers),
* `applets/clock/clock-location.c` (current location, timezone offset),
* `applets/clock/clock-location-tile.c` (visibility of the tile's button,
  marker and spacer),

followed by the properties established about them.

Conventions of the embedding.

* A C string is the list of its bytes as `Char`s; the terminating NUL is the
  first NUL cell or, failing that, the end of the list, so `key[i]` past the
  end reads as NUL.
* A `gchar **` string vector is the list of its cells, `none` being a NULL
  cell.
* Calls into GLib, GTK and libc are modelled by what their documentation says
  they do; their answers that depend on the outside world are parameters.
-/

namespace LattePanel

/-! ## panel-gsettings.c : key names -/

/-- The NUL byte that terminates a C string. -/
def NUL : Char := Char.ofNat 0

/-- The expression `key[i]` on a NUL-terminated string. -/
def keyAt (key : List Char) (i : Nat) : Char := key.getD i NUL

/-- GLib `g_ascii_islower`: the bytes `a` to `z` and nothing else. -/
def g_ascii_islower (c : Char) : Bool := decide (97 ≤ c.toNat ∧ c.toNat ≤ 122)

/-- GLib `g_ascii_isdigit`: the bytes `0` to `9` and nothing else. -/
def g_ascii_isdigit (c : Char) : Bool := decide (48 ≤ c.toNat ∧ c.toNat ≤ 57)

/-- The error codes of GLib's `G_MARKUP_ERROR` domain. -/
inductive GMarkupError where
  | G_MARKUP_ERROR_BAD_UTF8
  | G_MARKUP_ERROR_EMPTY
  | G_MARKUP_ERROR_PARSE
  | G_MARKUP_ERROR_UNKNOWN_ELEMENT
  | G_MARKUP_ERROR_UNKNOWN_ATTRIBUTE
  | G_MARKUP_ERROR_INVALID_CONTENT
  | G_MARKUP_ERROR_MISSING_ATTRIBUTE
  deriving DecidableEq, Repr

/-- A `GError` of the `G_MARKUP_ERROR` domain, as one call of `g_set_error`
or `g_set_error_literal` hands it to the caller. -/
structure GError where
  code : GMarkupError
  message : String
  deriving DecidableEq, Repr

/-- The C string as a Lean string, for the `%s` of the messages. -/
def keyText (key : List Char) : String := String.mk (key.takeWhile (fun c => c ≠ NUL))

/-- The error of the first check inside the loop (`invalid character`). -/
def errInvalidChar (key : List Char) (c : Char) : GError :=
  ⟨.G_MARKUP_ERROR_INVALID_CONTENT,
   "invalid name \x27" ++ keyText key ++ "\x27: invalid character \x27" ++ String.mk [c]
     ++ "\x27; only lowercase letters, numbers and dash (\x27-\x27) are permitted."⟩

/-- The error of the second check inside the loop (`--`). -/
def errTwoDashes (key : List Char) : GError :=
  ⟨.G_MARKUP_ERROR_INVALID_CONTENT,
   "invalid name \x27" ++ keyText key
     ++ "\x27: two successive dashes (\x27--\x27) are not permitted."⟩

/-- The loop `for (i = 1; key[i]; i++) { ... }` of
`panel_gsettings_is_valid_keyname`, entered with the cells `key[i], key[i+1], ...`
still ahead of the cursor.  It either leaves through one of the two
`return FALSE` statements, with the error that was set, or ends at the
terminator and yields the final value of `i`. -/
def keyname_loop (key : List Char) : List Char → Nat → Except GError Nat
  | [], i => .ok i
  | c :: ahead, i =>
    if c = NUL then .ok i
    else if c ≠ '-' ∧ g_ascii_islower c = false ∧ g_ascii_isdigit c = false then
      .error (errInvalidChar key c)
    else if c = '-' ∧ ahead.headD NUL = '-' then
      .error (errTwoDashes key)
    else keyname_loop key ahead (i + 1)

/-- The function `panel_gsettings_is_valid_keyname (key, error)`: the returned
`gboolean` together with the errors it set through `g_set_error` and
`g_set_error_literal`, in call order.  The counter `i` is a `gint` in the
source; it is a natural number here, the two agreeing on every key shorter
than 2^31 bytes. -/
def panel_gsettings_is_valid_keyname (key : List Char) : Bool × List GError :=
  if keyAt key 0 = NUL then
    (false, [⟨.G_MARKUP_ERROR_INVALID_CONTENT, "empty names are not permitted"⟩])
  else if g_ascii_islower (keyAt key 0) = false then
    (false, [⟨.G_MARKUP_ERROR_INVALID_CONTENT,
      "invalid name \x27" ++ keyText key
        ++ "\x27: names must begin with a lowercase letter"⟩])
  else
    match keyname_loop key (key.drop 1) 1 with
    | .error e => (false, [e])
    | .ok i =>
      if keyAt key (i - 1) = '-' then
        (false, [⟨.G_MARKUP_ERROR_INVALID_CONTENT,
          "invalid name \x27" ++ keyText key
            ++ "\x27: the last character may not be a dash (\x27-\x27)."⟩])
      else if i > 32 then
        (false, [⟨.G_MARKUP_ERROR_INVALID_CONTENT,
          "invalid name \x27" ++ keyText key ++ "\x27: maximum length is 32"⟩])
      else (true, [])

/-- The rules a key name has to obey, in the words of the documentation:
non-empty, a lowercase letter first, then only lowercase letters, digits and
dashes, no two successive dashes, no dash at the end, at most 32 bytes. -/
def KeynameRules (key : List Char) : Prop :=
  key ≠ [] ∧
  (∃ c, key.head? = some c ∧ g_ascii_islower c = true) ∧
  (∀ c ∈ key.tail, g_ascii_islower c = true ∨ g_ascii_isdigit c = true ∨ c = '-') ∧
  (∀ i, ¬ (key.get? i = some '-' ∧ key.get? (i + 1) = some '-')) ∧
  key.getLast? ≠ some '-' ∧
  key.length ≤ 32

/-- A list of bytes is the content of a NUL-terminated string when no byte of
it is NUL. -/
def IsCString (key : List Char) : Prop := ∀ c ∈ key, c ≠ NUL

/-- No two neighbouring cells of the list are both dashes. -/
def NoTwoDashes (l : List Char) : Prop :=
  ∀ i, ¬ (l.get? i = some '-' ∧ l.get? (i + 1) = some '-')

/-- Every cell is a lowercase letter, a digit or a dash. -/
def AllowedChars (l : List Char) : Prop :=
  ∀ c ∈ l, g_ascii_islower c = true ∨ g_ascii_isdigit c = true ∨ c = '-'

/-! ## panel-gsettings.c : string lists -/

/-- A `gchar **` string vector as its memory cells, `none` being a NULL cell.
Reading goes no further than the first NULL cell. -/
abbrev Strv := List (Option String)

/-- The strings of a NULL-terminated vector: the cells before the first NULL,
which is what `g_settings_set_strv` stores. -/
def strvStrings : Strv → List String
  | [] => []
  | none :: _ => []
  | some s :: cells => s :: strvStrings cells

/-- The cell `array[i]`. -/
def strvAt (array : Strv) (i : Nat) : Option String := array.getD i none

/-- A `GSettings` object as far as string-list keys go: the list stored under
each key, and whether a key can be written (GLib: `g_settings_set_strv`
returns `FALSE` if the key was not writable). -/
structure GSettings where
  strv : String → List String
  writable : String → Bool

/-- GLib `g_settings_get_strv`: a newly allocated NULL-terminated copy of the
list stored under `key`. -/
def g_settings_get_strv (settings : GSettings) (key : String) : Strv :=
  (settings.strv key).map some ++ [none]

/-- GLib `g_settings_set_strv`: stores the strings of `value` under `key` and
returns `TRUE`, or returns `FALSE` and stores nothing when the key is not
writable. -/
def g_settings_set_strv (settings : GSettings) (key : String) (value : Strv) :
    Bool × GSettings :=
  if settings.writable key then
    (true, { settings with
      strv := fun k => if k = key then strvStrings value else settings.strv k })
  else (false, settings)

/-- The counting loop `for (size = 0; old[size] != NULL; size++);`. -/
def strv_count : Strv → Nat
  | [] => 0
  | none :: _ => 0
  | some _ :: cells => strv_count cells + 1

/-- GLib `g_realloc_n (mem, n, sizeof (gchar *))`: a block of `n` cells that
keeps the old cells; the cells gained are indeterminate, `fresh` standing for
whatever they hold. -/
def g_realloc_n (fresh : Option String) (mem : Strv) (n : Nat) : Strv :=
  mem.take n ++ List.replicate (n - mem.length) fresh

/-- The function `panel_gsettings_append_strv (settings, key, value)`: the
returned `gboolean` and the settings afterwards.  `value` is `none` for a NULL
pointer (`g_strdup (NULL)` is NULL); `fresh` is the content of the cell gained
by the reallocation. -/
def panel_gsettings_append_strv (fresh : Option String) (settings : GSettings)
    (key : String) (value : Option String) : Bool × GSettings :=
  let old := g_settings_get_strv settings key
  let size := strv_count old
  let size := size + 1
  let size := size + 1
  let new := g_realloc_n fresh old size
  let new := new.set (size - 2) value
  let new := new.set (size - 1) none
  g_settings_set_strv settings key new

/-- GLib `g_strcmp0`: `strcmp` that also takes NULL, which sorts before every
string. -/
def g_strcmp0 : Option String → Option String → Int
  | none, none => 0
  | none, some _ => -1
  | some _, none => 1
  | some a, some b => if a = b then 0 else if a < b then -1 else 1

/-- The loop of `panel_gsettings_remove_all_from_strv` over the cells
`old[i], old[i+1], ...`, with the `GArray` built so far. -/
def remove_all_loop (value : Option String) : Strv → List String → List String
  | [], array => array
  | none :: _, array => array
  | some s :: cells, array =>
    remove_all_loop value cells
      (if g_strcmp0 (some s) value ≠ 0 then array ++ [s] else array)

/-- The function `panel_gsettings_remove_all_from_strv (settings, key, value)`.
The `GArray` is zero-terminated, so its data is the NULL-terminated vector of
its elements. -/
def panel_gsettings_remove_all_from_strv (settings : GSettings) (key : String)
    (value : Option String) : Bool × GSettings :=
  let old := g_settings_get_strv settings key
  let array := remove_all_loop value old []
  g_settings_set_strv settings key (array.map some ++ [none])

/-- The loop of `panel_gsettings_strv_to_gslist` over the cells
`array[i], array[i+1], ...`; `g_slist_append` puts the copy at the end. -/
def strv_to_gslist_loop : Strv → List String → List String
  | [], list => list
  | none :: _, list => list
  | some s :: cells, list => strv_to_gslist_loop cells (list ++ [s])

/-- The function `panel_gsettings_strv_to_gslist (array)`; `none` is the NULL
array, and the `GSList` is the list of its strings. -/
def panel_gsettings_strv_to_gslist (array : Option Strv) : List String :=
  match array with
  | none => []
  | some cells => strv_to_gslist_loop cells []

/-! ## clock-location.c -/

/-- What the location asks of its `SystemTimezone` object: the answers of
`system_timezone_get` and `system_timezone_get_env`, either of which may be
NULL. -/
structure SystemTimezone where
  tz : Option String
  env_tz : Option String

/-- The fields of `ClockLocationPrivate` that the functions below read. -/
structure ClockLocationPrivate where
  name : Option String
  city : Option String
  systz : SystemTimezone
  timezone : Option String
  tzname : Option String

/-- A `ClockLocation` object: its address, by which pointers to it are
compared, and its private data. -/
structure ClockLocation where
  addr : Nat
  priv : ClockLocationPrivate

/-- What libc knows of a zone at the instant `t` of the call: the global
`timezone` (seconds west of UTC in standard time) once the zone is loaded,
and the `tm_isdst` that `localtime (&t)` reports. -/
structure Zone where
  timezone : Int
  tm_isdst : Int

/-- The zone that `localtime` works in for each value of the `TZ` environment
variable, `none` being an unset `TZ`, i.e. the system zone. -/
abbrev ZoneTable := Option String → Zone

/-- The static variables of clock-location.c and the process state its
functions touch: `current_location` (an address, `none` for NULL), the objects
`current_location` was registered with as a weak pointer, the `set-current`
emissions so far in order, and the `TZ` environment variable. -/
structure LocationState where
  current_location : Option Nat
  weak_pointers : List Nat
  set_current_emitted : List Nat
  TZ : Option String

/-- The function `clock_location_unset_tz`: puts `TZ` back to what the system
timezone object says the environment had, unless the location has no
timezone. -/
def clock_location_unset_tz (loc : ClockLocation) (st : LocationState) : LocationState :=
  match loc.priv.timezone with
  | none => st
  | some _ =>
    match loc.priv.systz.env_tz with
    | some env_timezone => { st with TZ := some env_timezone }
    | none => { st with TZ := none }

/-- The function `clock_location_get_offset`.  The result is `none` when the
location has no timezone, `setenv` with a NULL value being undefined.  The
`glong` arithmetic is that of the integers: `timezone` is less than a day in
size. -/
def clock_location_get_offset (zones : ZoneTable) (loc : ClockLocation)
    (st : LocationState) : Option (Int × LocationState) :=
  let st := { st with TZ := none }
  let tm := zones st.TZ
  let sys_timezone := tm.timezone
  let sys_timezone := if tm.tm_isdst > 0 then sys_timezone - 3600 else sys_timezone
  match loc.priv.timezone with
  | none => none
  | some tz =>
    let st := { st with TZ := some tz }
    let tm := zones st.TZ
    let local_timezone := tm.timezone
    let local_timezone := if tm.tm_isdst > 0 then local_timezone - 3600 else local_timezone
    let offset := local_timezone - sys_timezone
    let st := clock_location_unset_tz loc st
    some (offset, st)

/-- The function `clock_location_is_current_timezone`.  The result is `none`
when the location has no timezone (`strcmp` and `setenv` with NULL). -/
def clock_location_is_current_timezone (zones : ZoneTable) (loc : ClockLocation)
    (st : LocationState) : Option (Bool × LocationState) :=
  match loc.priv.systz.tz with
  | some zone =>
    match loc.priv.timezone with
    | none => none
    | some tz => some (decide (zone = tz), st)
  | none =>
    match clock_location_get_offset zones loc st with
    | none => none
    | some (offset, st) => some (decide (offset = 0), st)

/-- The function `clock_location_is_current`; `loc` is a live object, so its
address is not NULL. -/
def clock_location_is_current (zones : ZoneTable) (loc : ClockLocation)
    (st : LocationState) : Option (Bool × LocationState) :=
  if st.current_location = some loc.addr then some (true, st)
  else if st.current_location ≠ none then some (false, st)
  else
    match clock_location_is_current_timezone zones loc st with
    | none => none
    | some (true, st) =>
      some (true, { st with
        current_location := some loc.addr
        weak_pointers := st.weak_pointers ++ [loc.addr]
        set_current_emitted := st.set_current_emitted ++ [loc.addr] })
    | some (false, st) => some (false, st)

/-- The claim's `W`: seconds west of UTC in standard time, an hour less while
daylight saving time is in effect. -/
def secondsWest (z : Zone) : Int :=
  if z.tm_isdst > 0 then z.timezone - 3600 else z.timezone

/-! ## clock-location-tile.c -/

/-- The fields of libc `struct tm`. -/
structure Tm where
  tm_sec : Int
  tm_min : Int
  tm_hour : Int
  tm_mday : Int
  tm_mon : Int
  tm_year : Int
  tm_wday : Int
  tm_yday : Int
  tm_isdst : Int

/-- The enumeration `ClockFaceSize` of clock-face.h. -/
inductive ClockFaceSize where
  | CLOCK_FACE_SMALL
  | CLOCK_FACE_LARGE
  deriving DecidableEq, Repr

/-- The enumeration `ClockFormat` of clock-utils.h; the tile only ever tests
for `CLOCK_FORMAT_12`. -/
inductive ClockFormat where
  | CLOCK_FORMAT_INVALID
  | CLOCK_FORMAT_12
  | CLOCK_FORMAT_24
  | CLOCK_FORMAT_UNIX
  | CLOCK_FORMAT_INTERNET
  | CLOCK_FORMAT_CUSTOM
  deriving DecidableEq, Repr

/-- The state of a tile: the fields of `ClockLocationTilePrivate` that hold
data, the `visible` flag of the three widgets `current_button`,
`current_marker` and `current_spacer` (set by `gtk_widget_show`, cleared by
`gtk_widget_hide`, read by `gtk_widget_get_visible`), the markup of the three
labels, and the number of `clock_face_refresh` calls made on the clock face. -/
structure ClockLocationTilePrivate where
  location : ClockLocation
  last_refresh : Tm
  last_offset : Int
  size : ClockFaceSize
  current_button : Bool
  current_marker : Bool
  current_spacer : Bool
  current_label : String
  city_label : String
  time_label : String
  clock_face_refreshed : Nat

/-- The value `GDK_CROSSING_NORMAL` of `GdkCrossingMode`. -/
def GDK_CROSSING_NORMAL : Int := 0

/-- The value `GDK_ENTER_NOTIFY` of `GdkEventType`. -/
def GDK_ENTER_NOTIFY : Int := 10

/-- The value `GDK_LEAVE_NOTIFY` of `GdkEventType`. -/
def GDK_LEAVE_NOTIFY : Int := 11

/-- The value `GDK_NOTIFY_INFERIOR` of `GdkNotifyType`. -/
def GDK_NOTIFY_INFERIOR : Int := 2

/-- The fields of `GdkEventCrossing` that the handler reads, each an
enumeration value. -/
structure GdkEventCrossing where
  type : Int
  mode : Int
  detail : Int

/-- The answers the outside gives during one `enter_or_leave_tile` call:
those of `clock_location_is_current (priv->location)`, of
`clock_location_is_current_timezone (priv->location)` and of
`can_set_system_timezone ()`. -/
structure CrossingAnswers where
  is_current : Bool
  is_current_timezone : Bool
  can_set_system_timezone : Int

/-- GTK `gtk_label_set_markup`, which takes a NULL string for the empty one. -/
def gtk_label_set_markup (str : Option String) : String := str.getD ""

/-- The handler `enter_or_leave_tile (widget, event, tile)`: the returned
`gboolean` and the tile afterwards.  Message catalogue lookups `_()` are left
at their message id. -/
def enter_or_leave_tile (event : GdkEventCrossing) (ans : CrossingAnswers)
    (priv : ClockLocationTilePrivate) : Bool × ClockLocationTilePrivate :=
  if event.mode ≠ GDK_CROSSING_NORMAL then (true, priv)
  else if ans.is_current then
    let priv := { priv with current_button := false }
    let priv := { priv with current_spacer := false }
    let priv := { priv with current_marker := true }
    (true, priv)
  else if event.type = GDK_ENTER_NOTIFY then
    let can_set : Int :=
      if ans.is_current_timezone then 2 else ans.can_set_system_timezone
    if can_set ≠ 0 then
      let priv := { priv with
        current_label := gtk_label_set_markup
          (some (if can_set = 1 then "<small>Set...</small>" else "<small>Set</small>")) }
      let priv := { priv with current_spacer := false }
      let priv := { priv with current_marker := false }
      let priv := { priv with current_button := true }
      (true, priv)
    else
      let priv := { priv with current_marker := false }
      let priv := { priv with current_button := false }
      let priv := { priv with current_spacer := true }
      (true, priv)
  else
    if event.detail ≠ GDK_NOTIFY_INFERIOR then
      let priv := { priv with current_button := false }
      let priv := { priv with current_marker := false }
      let priv := { priv with current_spacer := true }
      (true, priv)
    else (true, priv)

/-- The tile as `clock_location_tile_init` and then `clock_location_tile_new`
with `clock_location_tile_fill` leave it: zeroed refresh time and offset, the
given location and size, an empty `current_label`, empty city and time labels,
and all three of button, marker and spacer shown. -/
def clock_location_tile_new (loc : ClockLocation) (size : ClockFaceSize) :
    ClockLocationTilePrivate :=
  { location := loc
    last_refresh := ⟨0, 0, 0, 0, 0, 0, 0, 0, 0⟩
    last_offset := 0
    size := size
    current_button := true
    current_marker := true
    current_spacer := true
    current_label := ""
    city_label := ""
    time_label := ""
    clock_face_refreshed := 0 }

/-- The function `clock_needs_face_refresh`, `now` being what
`clock_location_localtime` returns. -/
def clock_needs_face_refresh (priv : ClockLocationTilePrivate) (now : Tm) : Bool :=
  if now.tm_year > priv.last_refresh.tm_year
      ∨ now.tm_mon > priv.last_refresh.tm_mon
      ∨ now.tm_mday > priv.last_refresh.tm_mday
      ∨ now.tm_hour > priv.last_refresh.tm_hour
      ∨ now.tm_min > priv.last_refresh.tm_min then true
  else if priv.size = ClockFaceSize.CLOCK_FACE_LARGE
      ∧ now.tm_sec > priv.last_refresh.tm_sec then true
  else false

/-- The function `clock_needs_label_refresh`, `now` and `offset` being what
`clock_location_localtime` and `clock_location_get_offset` return. -/
def clock_needs_label_refresh (priv : ClockLocationTilePrivate) (now : Tm)
    (offset : Int) : Bool :=
  if now.tm_year > priv.last_refresh.tm_year
      ∨ now.tm_mon > priv.last_refresh.tm_mon
      ∨ now.tm_mday > priv.last_refresh.tm_mday
      ∨ now.tm_hour > priv.last_refresh.tm_hour
      ∨ now.tm_min > priv.last_refresh.tm_min
      ∨ offset ≠ priv.last_offset then true
  else false

/-- The function `copy_tm (from, to)`, with `src` for `from` and `dst` for
`to`: every field but `tm_isdst` is copied. -/
def copy_tm (src : Tm) (dst : Tm) : Tm :=
  { dst with
    tm_sec := src.tm_sec
    tm_min := src.tm_min
    tm_hour := src.tm_hour
    tm_mday := src.tm_mday
    tm_mon := src.tm_mon
    tm_year := src.tm_year
    tm_wday := src.tm_wday
    tm_yday := src.tm_yday }

/-- The conversion `%ld` of printf. -/
def printf_ld (n : Int) : String :=
  if n < 0 then "-" ++ toString n.natAbs else toString n.natAbs

/-- The conversion `%+ld` of printf: the sign is always written. -/
def printf_plus_ld (n : Int) : String :=
  if n < 0 then "-" ++ toString n.natAbs else "+" ++ toString n.natAbs

/-- The function `format_time (now, tzname, clock_format, offset)`.
`local_wday` is the `tm_wday` of the local time taken inside, `strftime` gives
the buffer text for a format and a time (`none` when libc `strftime` returns
0) and `g_locale_to_utf8` is the GLib conversion, NULL on failure.  Division
and remainder are those of C, rounding towards zero. -/
def format_time (local_wday : Int) (strftime : String → Tm → Option String)
    (g_locale_to_utf8 : String → Option String)
    (now : Tm) (tzname : String) (clock_format : ClockFormat) (offset : Int) :
    Option String :=
  let format : String :=
    if local_wday ≠ now.tm_wday then
      if clock_format = ClockFormat.CLOCK_FORMAT_12 then "%l:%M <small>%p (%A)</small>"
      else "%H:%M <small>(%A)</small>"
    else
      if clock_format = ClockFormat.CLOCK_FORMAT_12 then "%l:%M <small>%p</small>"
      else "%H:%M"
  let buf : String :=
    match strftime format now with
    | none => "???"
    | some text => text
  let hours : Int := Int.tdiv offset 3600
  let minutes : Int := Int.tdiv (Int.natAbs (Int.tmod offset 3600)) 60
  let tmp : String :=
    if minutes ≠ 0 then
      buf ++ " <small>" ++ tzname ++ " " ++ printf_plus_ld hours ++ ":"
        ++ printf_ld minutes ++ "</small>"
    else if hours ≠ 0 then
      buf ++ " <small>" ++ tzname ++ " " ++ printf_plus_ld hours ++ "</small>"
    else
      buf ++ " <small>" ++ tzname ++ "</small>"
  g_locale_to_utf8 tmp

/-- The answers the outside gives during one `clock_location_tile_refresh`
call, in the order the function asks for them: `clock_location_is_current`;
the local time read by `clock_needs_face_refresh`; the local time and offset
read by `clock_needs_label_refresh`; then the local time, timezone name,
offset and display name of the location, the clock format handed back by the
`need-clock-format` signal, and what `format_time` needs. -/
structure RefreshAnswers where
  is_current : Bool
  face_now : Tm
  label_now : Tm
  label_offset : Int
  now : Tm
  tzname : String
  offset : Int
  display_name : String
  format : ClockFormat
  local_wday : Int
  strftime : String → Tm → Option String
  g_locale_to_utf8 : String → Option String

/-- The function `clock_location_tile_refresh (this, force_refresh)` on a
tile, which passes the `IS_CLOCK_LOCATION_TILE` check. -/
def clock_location_tile_refresh (ans : RefreshAnswers) (force_refresh : Bool)
    (priv : ClockLocationTilePrivate) : ClockLocationTilePrivate :=
  let priv :=
    if ans.is_current then
      let priv := { priv with current_spacer := false }
      let priv := { priv with current_button := false }
      { priv with current_marker := true }
    else
      if priv.current_marker then
        let priv := { priv with current_marker := false }
        let priv := { priv with current_button := false }
        { priv with current_spacer := true }
      else priv
  let priv :=
    if clock_needs_face_refresh priv ans.face_now then
      { priv with clock_face_refreshed := priv.clock_face_refreshed + 1 }
    else priv
  if !force_refresh && !clock_needs_label_refresh priv ans.label_now ans.label_offset then
    priv
  else
    let now := ans.now
    let tzname := ans.tzname
    let priv := { priv with last_refresh := copy_tm now priv.last_refresh }
    let priv := { priv with last_offset := ans.offset }
    let tmp := "<big><b>" ++ ans.display_name ++ "</b></big>"
    let priv := { priv with city_label := gtk_label_set_markup (some tmp) }
    let offset := - priv.last_offset
    let tmp := format_time ans.local_wday ans.strftime ans.g_locale_to_utf8
      now tzname ans.format offset
    { priv with time_label := gtk_label_set_markup tmp }

/-- One operation on a tile: a crossing event delivered to
`enter_or_leave_tile`, or a call of `clock_location_tile_refresh`, each with
the answers the outside gives during it. -/
inductive TileOp where
  | crossing (event : GdkEventCrossing) (ans : CrossingAnswers)
  | refresh (ans : RefreshAnswers) (force_refresh : Bool)

/-- The tile after one operation. -/
def TileOp.apply (op : TileOp) (priv : ClockLocationTilePrivate) :
    ClockLocationTilePrivate :=
  match op with
  | .crossing event ans => (enter_or_leave_tile event ans priv).2
  | .refresh ans force_refresh => clock_location_tile_refresh ans force_refresh priv

/-- The tile after a sequence of operations, first to last. -/
def runOps (ops : List TileOp) (priv : ClockLocationTilePrivate) :
    ClockLocationTilePrivate :=
  ops.foldl (fun p op => op.apply p) priv

/-- How many of `current_button`, `current_marker` and `current_spacer` are
visible. -/
def visibleCount (priv : ClockLocationTilePrivate) : Nat :=
  (if priv.current_button then 1 else 0) + (if priv.current_marker then 1 else 0)
    + (if priv.current_spacer then 1 else 0)

/-- Whether the operation is a `clock_location_tile_refresh` call or a crossing
event on which `enter_or_leave_tile` takes one of its hide-and-show branches:
the mode is `GDK_CROSSING_NORMAL` and the location is current, or the event
type is `GDK_ENTER_NOTIFY`, or the detail is not `GDK_NOTIFY_INFERIOR`.  On
every other crossing event the handler returns without touching a widget. -/
def TileOp.setsVisibility : TileOp → Bool
  | .refresh _ _ => true
  | .crossing event ans =>
    decide (event.mode = GDK_CROSSING_NORMAL) &&
      (ans.is_current || decide (event.type = GDK_ENTER_NOTIFY)
        || decide (event.detail ≠ GDK_NOTIFY_INFERIOR))

/-! ## Sample data for the concrete instances below -/

/-- A location in zone `Europe/Paris` on a system whose zone file names the
same zone. -/
def parisLocation : ClockLocation :=
  { addr := 1
    priv :=
      { name := some "Paris"
        city := some "Paris"
        systz := { tz := some "Europe/Paris", env_tz := none }
        timezone := some "Europe/Paris"
        tzname := some "CET" } }

/-- A location in zone `Asia/Tokyo` on a system that cannot name its zone. -/
def tokyoLocation : ClockLocation :=
  { addr := 2
    priv :=
      { name := none
        city := some "Tokyo"
        systz := { tz := none, env_tz := none }
        timezone := some "Asia/Tokyo"
        tzname := some "JST" } }

/-- A zone table in which the system zone is an hour east of UTC with daylight
saving time in effect, `Asia/Tokyo` is nine hours east without, and every
other zone is UTC. -/
def sampleZones : ZoneTable := fun tz =>
  match tz with
  | none => { timezone := -3600, tm_isdst := 1 }
  | some name =>
    if name = "Asia/Tokyo" then { timezone := -32400, tm_isdst := 0 }
    else { timezone := 0, tm_isdst := 0 }

/-- The state of clock-location.c before any location is current. -/
def noCurrentLocation : LocationState :=
  { current_location := none, weak_pointers := [], set_current_emitted := [], TZ := none }

/-- A tile on which only the spacer is visible. -/
def spacerTile : ClockLocationTilePrivate :=
  { clock_location_tile_new parisLocation ClockFaceSize.CLOCK_FACE_SMALL with
    current_button := false
    current_marker := false }

/-- Lexicographic "not later than" on field lists, the first field being the
most significant. -/
def lexLe : List Int → List Int → Bool
  | [], _ => true
  | _ :: _, [] => false
  | a :: l, b :: m => decide (a < b) || (decide (a = b) && lexLe l m)

/-- The five fields `(tm_year, tm_mon, tm_mday, tm_hour, tm_min)` of a
broken-down time, most significant first. -/
def minuteFields (t : Tm) : List Int :=
  [t.tm_year, t.tm_mon, t.tm_mday, t.tm_hour, t.tm_min]

/-- The five fields of `minuteFields` with `tm_sec` as a sixth, least
significant one. -/
def secondFields (t : Tm) : List Int :=
  [t.tm_year, t.tm_mon, t.tm_mday, t.tm_hour, t.tm_min, t.tm_sec]

/-- A small tile last refreshed at 09:59:30 on 5 March of year 124. -/
def smallTileAt0959 : ClockLocationTilePrivate :=
  { spacerTile with last_refresh := ⟨30, 59, 9, 5, 2, 124, 2, 64, 0⟩ }

/-- A large tile last refreshed at 09:59:30 on 5 March of year 124. -/
def largeTileAt0959 : ClockLocationTilePrivate :=
  { smallTileAt0959 with size := ClockFaceSize.CLOCK_FACE_LARGE }

/-- The store holding `[a, b]` under every key, all keys writable. -/
def sampleSettings : GSettings :=
  { strv := fun _ => ["a", "b"], writable := fun _ => true }

/-! ## Properties : key names -/

theorem noTwoDashes_cons (c : Char) (l : List Char) :
    NoTwoDashes (c :: l) ↔ ¬ (c = '-' ∧ l.head? = some '-') ∧ NoTwoDashes l := by
  constructor
  · intro h
    refine ⟨?_, fun i => ?_⟩
    · have h0 := h 0
      cases l with
      | nil => simp
      | cons d l => simpa using h0
    · simpa using h (i + 1)
  · rintro ⟨h0, ht⟩ i
    cases i with
    | zero =>
      cases l with
      | nil => simp
      | cons d l => simpa using h0
    | succ i => simpa using ht i

theorem headD_eq_dash (l : List Char) : l.headD NUL = '-' ↔ l.head? = some '-' := by
  cases l with
  | nil => simp [NUL]
  | cons a l => simp

theorem islower_ne_dash {c : Char} (h : g_ascii_islower c = true) : c ≠ '-' := by
  rintro rfl
  revert h
  decide

theorem keyname_loop_spec (key : List Char) :
    ∀ (ahead : List Char) (i : Nat), IsCString ahead →
      (AllowedChars ahead ∧ NoTwoDashes ahead →
          keyname_loop key ahead i = .ok (i + ahead.length)) ∧
      (¬ (AllowedChars ahead ∧ NoTwoDashes ahead) →
          ∃ e, keyname_loop key ahead i = .error e) := by
  intro ahead
  induction ahead with
  | nil =>
    intro i _
    refine ⟨fun _ => by simp [keyname_loop], fun h => ?_⟩
    exact absurd ⟨by simp [AllowedChars], by simp [NoTwoDashes]⟩ h
  | cons c ahead ih =>
    intro i hc
    have hcn : c ≠ NUL := hc c (by simp)
    have hrest : IsCString ahead := fun d hd => hc d (by simp [hd])
    obtain ⟨ihok, iherr⟩ := ih (i + 1) hrest
    have hallow : AllowedChars (c :: ahead) ↔
        (g_ascii_islower c = true ∨ g_ascii_isdigit c = true ∨ c = '-') ∧
          AllowedChars ahead := by
      simp [AllowedChars]
    rw [hallow, noTwoDashes_cons]
    by_cases hbad : c ≠ '-' ∧ g_ascii_islower c = false ∧ g_ascii_isdigit c = false
    · refine ⟨fun h => ?_, fun _ => ⟨errInvalidChar key c, by
        simp only [keyname_loop, if_neg hcn, if_pos hbad]⟩⟩
      obtain ⟨⟨h1 | h1 | h1, _⟩, _⟩ := h
      · simp [hbad.2.1] at h1
      · simp [hbad.2.2] at h1
      · exact absurd h1 hbad.1
    · have hgood : g_ascii_islower c = true ∨ g_ascii_isdigit c = true ∨ c = '-' := by
        by_cases h1 : c = '-'
        · exact Or.inr (Or.inr h1)
        · by_cases h2 : g_ascii_islower c = true
          · exact Or.inl h2
          · by_cases h3 : g_ascii_isdigit c = true
            · exact Or.inr (Or.inl h3)
            · exact absurd ⟨h1, by simpa using h2, by simpa using h3⟩ hbad
      by_cases hdd : c = '-' ∧ ahead.headD NUL = '-'
      · refine ⟨fun h => ?_, fun _ => ⟨errTwoDashes key, by
          simp only [keyname_loop, if_neg hcn, if_neg hbad, if_pos hdd]⟩⟩
        exact absurd ⟨hdd.1, (headD_eq_dash ahead).1 hdd.2⟩ h.2.1
      · have hstep : keyname_loop key (c :: ahead) i = keyname_loop key ahead (i + 1) := by
          simp only [keyname_loop, if_neg hcn, if_neg hbad, if_neg hdd]
        have hdd2 : ¬ (c = '-' ∧ ahead.head? = some '-') := by
          rw [← headD_eq_dash]; exact hdd
        rw [hstep]
        constructor
        · rintro ⟨⟨_, h1⟩, _, h2⟩
          rw [ihok ⟨h1, h2⟩, List.length_cons]
          congr 1; omega
        · intro h
          apply iherr
          rintro ⟨h1, h2⟩
          exact h ⟨⟨hgood, h1⟩, hdd2, h2⟩

theorem last_cell_eq_getD (c : Char) (l : List Char) :
    (c :: l).getLast? = some ((c :: l).getD l.length NUL) := by
  induction l generalizing c with
  | nil => simp
  | cons d l ih =>
    rw [List.getLast?_cons_cons, ih d]
    simp

theorem keyname_loop_error_code (key : List Char) :
    ∀ (ahead : List Char) (i : Nat) (e : GError),
      keyname_loop key ahead i = .error e →
        e.code = GMarkupError.G_MARKUP_ERROR_INVALID_CONTENT := by
  intro ahead
  induction ahead with
  | nil => intro i e h; simp [keyname_loop] at h
  | cons c ahead ih =>
    intro i e h
    simp only [keyname_loop] at h
    split_ifs at h with h1 h2 h3
    · injection h with h; rw [← h]; rfl
    · injection h with h; rw [← h]; rfl
    · exact ih (i + 1) e h

theorem final_checks_fst (A B : Prop) [Decidable A] [Decidable B] (x y : List GError) :
    (if A then (false, x) else if B then (false, y) else (true, ([] : List GError))).1 = true
      ↔ ¬ A ∧ ¬ B := by
  by_cases hA : A <;> by_cases hB : B <;> simp [hA, hB]

/-- The accepted keys are exactly those obeying the rules (shared by the
statements on `panel_gsettings_is_valid_keyname` below). -/
theorem keyname_rules_iff_accepted (key : List Char) (hc : IsCString key) :
    (panel_gsettings_is_valid_keyname key).1 = true ↔ KeynameRules key := by
  cases key with
  | nil =>
    simp [panel_gsettings_is_valid_keyname, keyAt, KeynameRules]
  | cons c0 l =>
    have hc0 : c0 ≠ NUL := hc c0 (by simp)
    have hl : IsCString l := fun d hd => hc d (by simp [hd])
    have hlast := last_cell_eq_getD c0 l
    by_cases hlow : g_ascii_islower c0 = false
    · have hlow2 : ¬ g_ascii_islower c0 = true := by simp [hlow]
      simp [panel_gsettings_is_valid_keyname, keyAt, KeynameRules, hc0, hlow]
    · have hlow2 : g_ascii_islower c0 = true := by simpa using hlow
      have hnd : c0 ≠ '-' := islower_ne_dash hlow2
      have hntd : NoTwoDashes (c0 :: l) ↔ NoTwoDashes l := by
        rw [noTwoDashes_cons]
        exact ⟨fun h => h.2, fun h => ⟨fun h2 => hnd h2.1, h⟩⟩
      obtain ⟨hok, herr⟩ := keyname_loop_spec (c0 :: l) l 1 hl
      by_cases hgood : AllowedChars l ∧ NoTwoDashes l
      · have hloop := hok hgood
        have hidx : 1 + l.length - 1 = l.length := by omega
        have hfun : (panel_gsettings_is_valid_keyname (c0 :: l)).1 = true ↔
            ((c0 :: l).getD l.length NUL ≠ '-' ∧ ¬ (1 + l.length > 32)) := by
          simp only [panel_gsettings_is_valid_keyname, keyAt, List.getD_cons_zero,
            if_neg hc0, if_neg hlow, List.drop_succ_cons, List.drop_zero, hloop, hidx]
          exact final_checks_fst _ _ _ _
        rw [hfun]
        unfold KeynameRules
        rw [hlast]
        constructor
        · rintro ⟨h1, h2⟩
          refine ⟨by simp, ⟨c0, by simp, hlow2⟩, hgood.1, hntd.2 hgood.2, ?_, ?_⟩
          · simpa using h1
          · simp only [List.length_cons]; omega
        · rintro ⟨_, _, _, _, h5, h6⟩
          refine ⟨by simpa using h5, ?_⟩
          simp only [List.length_cons] at h6; omega
      · obtain ⟨e, he⟩ := herr hgood
        have hfun : (panel_gsettings_is_valid_keyname (c0 :: l)).1 = false := by
          simp only [panel_gsettings_is_valid_keyname, keyAt, List.getD_cons_zero,
            if_neg hc0, if_neg hlow, List.drop_succ_cons, List.drop_zero, he]
        rw [hfun]
        constructor
        · intro h; exact absurd h (by simp)
        · rintro ⟨_, _, h3, h4, _, _⟩
          exact absurd ⟨h3, hntd.1 h4⟩ hgood

/-- Whatever the key, the result is either `TRUE` with no error set or `FALSE`
with exactly one error of code `G_MARKUP_ERROR_INVALID_CONTENT`. -/
theorem valid_keyname_result_shape (key : List Char) :
    panel_gsettings_is_valid_keyname key = (true, []) ∨
    ∃ e, e.code = GMarkupError.G_MARKUP_ERROR_INVALID_CONTENT ∧
      panel_gsettings_is_valid_keyname key = (false, [e]) := by
  unfold panel_gsettings_is_valid_keyname
  split_ifs with h1 h2
  · exact Or.inr ⟨_, rfl, rfl⟩
  · exact Or.inr ⟨_, rfl, rfl⟩
  · cases hloop : keyname_loop key (key.drop 1) 1 with
    | error e =>
      exact Or.inr ⟨e, keyname_loop_error_code key _ _ e hloop, rfl⟩
    | ok i =>
      simp only
      split_ifs with h3 h4
      · exact Or.inr ⟨_, rfl, rfl⟩
      · exact Or.inr ⟨_, rfl, rfl⟩
      · exact Or.inl rfl

/-- C1: for a NUL-terminated key, `panel_gsettings_is_valid_keyname` returns
`TRUE` if and only if the key is non-empty, its first character is an ASCII
lowercase letter, every later character is an ASCII lowercase letter, an ASCII
digit or a dash, no two successive characters are dashes, the last character
is not a dash, and the length is at most 32. -/
theorem valid_keyname_iff (key : List Char) (hc : IsCString key) :
    (panel_gsettings_is_valid_keyname key).1 = true ↔
      (key ≠ [] ∧
       (∃ c, key.head? = some c ∧ g_ascii_islower c = true) ∧
       (∀ c ∈ key.tail, g_ascii_islower c = true ∨ g_ascii_isdigit c = true ∨ c = '-') ∧
       (∀ i, ¬ (key.get? i = some '-' ∧ key.get? (i + 1) = some '-')) ∧
       key.getLast? ≠ some '-' ∧
       key.length ≤ 32) :=
  keyname_rules_iff_accepted key hc

/-- The statement `valid_keyname_iff` at the key `ab-c9`, which is accepted. -/
theorem valid_keyname_iff_witness :
    IsCString ['a', 'b', '-', 'c', '9'] ∧
    (panel_gsettings_is_valid_keyname ['a', 'b', '-', 'c', '9']).1 = true ∧
    ((panel_gsettings_is_valid_keyname ['a', 'b', '-', 'c', '9']).1 = true ↔
      (['a', 'b', '-', 'c', '9'] ≠ [] ∧
       (∃ c, ['a', 'b', '-', 'c', '9'].head? = some c ∧ g_ascii_islower c = true) ∧
       (∀ c ∈ ['a', 'b', '-', 'c', '9'].tail,
          g_ascii_islower c = true ∨ g_ascii_isdigit c = true ∨ c = '-') ∧
       (∀ i, ¬ (['a', 'b', '-', 'c', '9'].get? i = some '-' ∧
          ['a', 'b', '-', 'c', '9'].get? (i + 1) = some '-')) ∧
       ['a', 'b', '-', 'c', '9'].getLast? ≠ some '-' ∧
       ['a', 'b', '-', 'c', '9'].length ≤ 32)) :=
  ⟨by unfold IsCString; decide, by decide,
   valid_keyname_iff ['a', 'b', '-', 'c', '9'] (by unfold IsCString; decide)⟩

/-- C2: the maximum accepted length is 32.  Every NUL-terminated key of 33 or
more characters is rejected; a key of exactly 32 characters that obeys the
character rules is accepted, and so is the key of 32 letters `a`. -/
theorem keyname_max_length (key : List Char) (hc : IsCString key) :
    (33 ≤ key.length → (panel_gsettings_is_valid_keyname key).1 = false) ∧
    (key.length = 32 →
      (∃ c, key.head? = some c ∧ g_ascii_islower c = true) →
      (∀ c ∈ key.tail, g_ascii_islower c = true ∨ g_ascii_isdigit c = true ∨ c = '-') →
      (∀ i, ¬ (key.get? i = some '-' ∧ key.get? (i + 1) = some '-')) →
      key.getLast? ≠ some '-' →
      (panel_gsettings_is_valid_keyname key).1 = true) ∧
    (panel_gsettings_is_valid_keyname (List.replicate 32 'a')).1 = true := by
  refine ⟨fun hlen => ?_, fun hlen h1 h2 h3 h4 => ?_, by decide⟩
  · cases hres : (panel_gsettings_is_valid_keyname key).1 with
    | false => rfl
    | true =>
      have h := ((keyname_rules_iff_accepted key hc).1 hres).2.2.2.2.2
      omega
  · refine (keyname_rules_iff_accepted key hc).2 ⟨?_, h1, h2, h3, h4, by omega⟩
    intro hnil
    rw [hnil] at hlen
    simp at hlen

/-- The statement `keyname_max_length` at the key of 33 letters `a`, which is
rejected. -/
theorem keyname_max_length_witness :
    IsCString (List.replicate 33 'a') ∧
    33 ≤ (List.replicate 33 'a').length ∧
    (panel_gsettings_is_valid_keyname (List.replicate 33 'a')).1 = false :=
  ⟨by unfold IsCString; decide, by decide,
   (keyname_max_length (List.replicate 33 'a') (by unfold IsCString; decide)).1 (by decide)⟩

/-- C3: for every key, `panel_gsettings_is_valid_keyname` sets an error if and
only if it returns `FALSE`; when it returns `FALSE` it has set exactly one
error, of code `G_MARKUP_ERROR_INVALID_CONTENT`, and when it returns `TRUE` it
has set none. -/
theorem keyname_error_iff_false (key : List Char) :
    ((panel_gsettings_is_valid_keyname key).2 ≠ [] ↔
      (panel_gsettings_is_valid_keyname key).1 = false) ∧
    (panel_gsettings_is_valid_keyname key = (true, []) ∨
      ∃ e, e.code = GMarkupError.G_MARKUP_ERROR_INVALID_CONTENT ∧
        panel_gsettings_is_valid_keyname key = (false, [e])) := by
  refine ⟨?_, valid_keyname_result_shape key⟩
  rcases valid_keyname_result_shape key with h | ⟨e, _, h⟩ <;> rw [h] <;> simp

/-! ## Properties : string lists -/

theorem strvStrings_map_some_append (l : List String) (cells : Strv) :
    strvStrings (l.map some ++ cells) = l ++ strvStrings cells := by
  induction l with
  | nil => simp
  | cons s l ih => simp [strvStrings, ih]

theorem strv_count_map_some_append (l : List String) (cells : Strv) :
    strv_count (l.map some ++ cells) = l.length + strv_count cells := by
  induction l with
  | nil => simp
  | cons s l ih => simp [strv_count, ih]; omega

/-- The vector that `panel_gsettings_append_strv` hands to
`g_settings_set_strv`: the old cells, then `value`, then NULL. -/
theorem append_strv_vector (fresh : Option String) (l : List String)
    (value : Option String) :
    ((g_realloc_n fresh (l.map some ++ [none]) (l.length + 1 + 1)).set
        (l.length + 1 + 1 - 2) value).set (l.length + 1 + 1 - 1) none
      = l.map some ++ [value, none] := by
  have h1 : g_realloc_n fresh (l.map some ++ [none]) (l.length + 1 + 1)
      = l.map some ++ [none, fresh] := by
    unfold g_realloc_n
    rw [List.take_of_length_le (by simp)]
    simp
  have h2 : l.length + 1 + 1 - 2 = (l.map some).length := by simp
  have h3 : l.length + 1 + 1 - 1 = (l.map some).length + 1 := by simp
  rw [h1, h2, h3]
  rw [List.set_append_right _ _ (le_refl _), List.set_append_right _ _ (by omega)]
  simp

theorem panel_gsettings_append_strv_eq (fresh : Option String) (settings : GSettings)
    (key : String) (value : Option String) :
    panel_gsettings_append_strv fresh settings key value
      = g_settings_set_strv settings key ((settings.strv key).map some ++ [value, none]) := by
  have hcount : strv_count (g_settings_get_strv settings key) = (settings.strv key).length := by
    simp [g_settings_get_strv, strv_count_map_some_append, strv_count]
  simp only [panel_gsettings_append_strv, hcount]
  rw [g_settings_get_strv, append_strv_vector]

theorem g_strcmp0_eq_zero (a b : Option String) : g_strcmp0 a b = 0 ↔ a = b := by
  cases a with
  | none => cases b <;> simp [g_strcmp0]
  | some a =>
    cases b with
    | none => simp [g_strcmp0]
    | some b =>
      simp only [g_strcmp0, Option.some.injEq]
      by_cases he : a = b
      · simp [he]
      · by_cases hlt : a < b <;> simp [hlt, he]

theorem remove_all_loop_eq (value : Option String) (l : List String) (cells : Strv)
    (array : List String) :
    remove_all_loop value (l.map some ++ none :: cells) array
      = array ++ l.filter (fun s => decide (some s ≠ value)) := by
  induction l generalizing array with
  | nil => simp [remove_all_loop]
  | cons s l ih =>
    have hstep : remove_all_loop value ((s :: l).map some ++ none :: cells) array
        = remove_all_loop value (l.map some ++ none :: cells)
            (if g_strcmp0 (some s) value ≠ 0 then array ++ [s] else array) := rfl
    rw [hstep]
    by_cases h : some s = value
    · have h0 : ¬ g_strcmp0 (some s) value ≠ 0 := not_not.2 ((g_strcmp0_eq_zero _ _).2 h)
      rw [if_neg h0, ih, List.filter_cons_of_neg (by simp [h])]
    · have h0 : g_strcmp0 (some s) value ≠ 0 := fun hz => h ((g_strcmp0_eq_zero _ _).1 hz)
      rw [if_pos h0, ih, List.filter_cons_of_pos (by simp [h]), List.append_assoc]
      rfl

theorem strv_to_gslist_loop_eq (l : List String) (cells : Strv) (list : List String) :
    strv_to_gslist_loop (l.map some ++ none :: cells) list = list ++ l := by
  induction l generalizing list with
  | nil => simp [strv_to_gslist_loop]
  | cons s l ih => simp [strv_to_gslist_loop, ih]

/-- C4: `panel_gsettings_append_strv` returns the success flag of the write,
and when the write succeeds the list stored under `key` is the previously
stored list followed by `value` as its one new last element: the length grows
by exactly one and the earlier elements stay in place. -/
theorem append_strv_appends (fresh : Option String) (settings : GSettings)
    (key : String) (value : String) :
    (panel_gsettings_append_strv fresh settings key (some value)).1 = settings.writable key ∧
    ((panel_gsettings_append_strv fresh settings key (some value)).1 = true →
      (panel_gsettings_append_strv fresh settings key (some value)).2.strv key
          = settings.strv key ++ [value] ∧
      ((panel_gsettings_append_strv fresh settings key (some value)).2.strv key).length
          = (settings.strv key).length + 1 ∧
      (∀ i, i < (settings.strv key).length →
        ((panel_gsettings_append_strv fresh settings key (some value)).2.strv key).get? i
          = (settings.strv key).get? i) ∧
      ((panel_gsettings_append_strv fresh settings key (some value)).2.strv key).getLast?
          = some value) := by
  rw [panel_gsettings_append_strv_eq]
  unfold g_settings_set_strv
  by_cases hw : settings.writable key = true
  · have hs : strvStrings (List.map some (settings.strv key) ++ [some value, none])
        = settings.strv key ++ [value] := by
      simp [strvStrings_map_some_append, strvStrings]
    simp only [hw, if_true, hs]
    refine ⟨trivial, fun _ => ⟨?_, ?_, fun i hi => ?_, ?_⟩⟩
    · simp
    · simp
    · simp [List.getElem?_append_left hi]
    · simp
  · simp [hw]

/-- The statement `append_strv_appends` on a store holding `[a, b]` under the
writable key `k`: appending `c` leaves `[a, b, c]`. -/
theorem append_strv_appends_witness :
    (panel_gsettings_append_strv none ⟨fun _ => ["a", "b"], fun _ => true⟩ "k" (some "c")).1
        = true ∧
    (panel_gsettings_append_strv none ⟨fun _ => ["a", "b"], fun _ => true⟩ "k"
        (some "c")).2.strv "k" = ["a", "b"] ++ ["c"] :=
  ⟨by decide,
   ((append_strv_appends none ⟨fun _ => ["a", "b"], fun _ => true⟩ "k" "c").2 (by decide)).1⟩

/-- C5: when the write succeeds, `panel_gsettings_remove_all_from_strv` leaves
under `key` the previously stored list without the elements equal to `value`,
the other elements in their original order; `value` no longer occurs in it. -/
theorem remove_all_from_strv_filters (settings : GSettings) (key : String)
    (value : Option String) :
    (panel_gsettings_remove_all_from_strv settings key value).1 = settings.writable key ∧
    ((panel_gsettings_remove_all_from_strv settings key value).1 = true →
      (panel_gsettings_remove_all_from_strv settings key value).2.strv key
          = (settings.strv key).filter (fun s => decide (some s ≠ value)) ∧
      (∀ v, value = some v →
        v ∉ (panel_gsettings_remove_all_from_strv settings key value).2.strv key) ∧
      (∀ s, s ∈ (panel_gsettings_remove_all_from_strv settings key value).2.strv key ↔
        s ∈ settings.strv key ∧ some s ≠ value) ∧
      List.Sublist ((panel_gsettings_remove_all_from_strv settings key value).2.strv key)
        (settings.strv key)) := by
  have hfun : panel_gsettings_remove_all_from_strv settings key value
      = g_settings_set_strv settings key
          (((settings.strv key).filter (fun s => decide (some s ≠ value))).map some ++ [none]) := by
    simp only [panel_gsettings_remove_all_from_strv, g_settings_get_strv, remove_all_loop_eq,
      List.nil_append]
  rw [hfun]
  unfold g_settings_set_strv
  by_cases hw : settings.writable key = true
  · have hs : ∀ l : List String, strvStrings (List.map some l ++ [none]) = l := by
      intro l
      simp [strvStrings_map_some_append, strvStrings]
    simp only [hw, if_true, hs]
    refine ⟨trivial, fun _ => ⟨?_, fun v hv => ?_, fun s => ?_, ?_⟩⟩
    · simp
    · simp [hv]
    · simp
    · simp
  · simp [hw]

/-- The statement `remove_all_from_strv_filters` on a store holding
`[a, b, a, c]` under the writable key `k`: removing `a` leaves `[b, c]`. -/
theorem remove_all_from_strv_filters_witness :
    (panel_gsettings_remove_all_from_strv ⟨fun _ => ["a", "b", "a", "c"], fun _ => true⟩ "k"
        (some "a")).1 = true ∧
    (panel_gsettings_remove_all_from_strv ⟨fun _ => ["a", "b", "a", "c"], fun _ => true⟩ "k"
        (some "a")).2.strv "k"
      = ["a", "b", "a", "c"].filter (fun s => decide (some s ≠ some "a")) :=
  ⟨by decide,
   ((remove_all_from_strv_filters ⟨fun _ => ["a", "b", "a", "c"], fun _ => true⟩ "k"
      (some "a")).2 (by decide)).1⟩

/-- C6: `panel_gsettings_strv_to_gslist` turns a NULL-terminated string array
into the list of the same strings in the same order, of the same length,
element `i` of the list being `array[i]`; the NULL array and an array whose
first entry is NULL both give the empty list. -/
theorem strv_to_gslist_same (l : List String) (cells : Strv) :
    panel_gsettings_strv_to_gslist (some (l.map some ++ none :: cells)) = l ∧
    (panel_gsettings_strv_to_gslist (some (l.map some ++ none :: cells))).length
        = strv_count (l.map some ++ none :: cells) ∧
    (∀ i, i < l.length →
      (panel_gsettings_strv_to_gslist (some (l.map some ++ none :: cells))).get? i
        = strvAt (l.map some ++ none :: cells) i) ∧
    panel_gsettings_strv_to_gslist none = [] ∧
    panel_gsettings_strv_to_gslist (some (none :: cells)) = [] := by
  have h : panel_gsettings_strv_to_gslist (some (l.map some ++ none :: cells)) = l := by
    simp [panel_gsettings_strv_to_gslist, strv_to_gslist_loop_eq]
  rw [h]
  refine ⟨rfl, ?_, fun i hi => ?_, rfl, rfl⟩
  · simp [strv_count_map_some_append, strv_count]
  · have hi2 : i < (l.map some).length := by simpa using hi
    simp [strvAt, List.getD_eq_getElem?_getD, List.getElem?_append_left hi2, hi]

/-! ## Properties : clock locations -/

theorem clock_location_unset_tz_keeps (loc : ClockLocation) (st : LocationState) :
    (clock_location_unset_tz loc st).current_location = st.current_location ∧
    (clock_location_unset_tz loc st).set_current_emitted = st.set_current_emitted := by
  unfold clock_location_unset_tz
  cases loc.priv.timezone with
  | none => exact ⟨rfl, rfl⟩
  | some tz =>
    cases loc.priv.systz.env_tz with
    | none => exact ⟨rfl, rfl⟩
    | some e => exact ⟨rfl, rfl⟩

theorem clock_location_get_offset_eq (zones : ZoneTable) (loc : ClockLocation)
    (st : LocationState) (tz : String) (htz : loc.priv.timezone = some tz) :
    clock_location_get_offset zones loc st
      = some (secondsWest (zones (some tz)) - secondsWest (zones none),
          clock_location_unset_tz loc { st with TZ := some tz }) := by
  simp only [clock_location_get_offset, htz, secondsWest]

theorem clock_location_is_current_timezone_keeps (zones : ZoneTable) (loc : ClockLocation)
    (st st1 : LocationState) (b : Bool)
    (h : clock_location_is_current_timezone zones loc st = some (b, st1)) :
    st1.current_location = st.current_location ∧
    st1.set_current_emitted = st.set_current_emitted := by
  unfold clock_location_is_current_timezone at h
  cases hz : loc.priv.systz.tz with
  | some zone =>
    rw [hz] at h
    cases ht : loc.priv.timezone with
    | none => rw [ht] at h; simp at h
    | some tz =>
      rw [ht] at h
      simp only [Option.some.injEq, Prod.mk.injEq] at h
      rw [← h.2]
      exact ⟨rfl, rfl⟩
  | none =>
    rw [hz] at h
    cases ht : loc.priv.timezone with
    | none =>
      have : clock_location_get_offset zones loc st = none := by
        simp only [clock_location_get_offset, ht]
      rw [this] at h
      simp at h
    | some tz =>
      rw [clock_location_get_offset_eq zones loc st tz ht] at h
      simp only [Option.some.injEq, Prod.mk.injEq] at h
      rw [← h.2]
      exact clock_location_unset_tz_keeps loc _

/-- C7: when `current_location` is NULL, `clock_location_is_current (loc)`
returns what `clock_location_is_current_timezone (loc)` returns; if that is
`TRUE`, `current_location` becomes `loc` and `set-current` is emitted once on
it, and otherwise `current_location` stays NULL and nothing is emitted. -/
theorem is_current_sets_current (zones : ZoneTable) (loc : ClockLocation)
    (st st1 : LocationState) (b : Bool)
    (hnull : st.current_location = none)
    (htz : clock_location_is_current_timezone zones loc st = some (b, st1)) :
    ∃ st2, clock_location_is_current zones loc st = some (b, st2) ∧
      st2.current_location = (if b = true then some loc.addr else none) ∧
      st2.set_current_emitted =
        (if b = true then st.set_current_emitted ++ [loc.addr] else st.set_current_emitted) := by
  obtain ⟨hcur, hemit⟩ := clock_location_is_current_timezone_keeps zones loc st st1 b htz
  have h1 : ¬ st.current_location = some loc.addr := by rw [hnull]; simp
  have h2 : ¬ st.current_location ≠ none := by rw [hnull]; simp
  unfold clock_location_is_current
  rw [if_neg h1, if_neg h2, htz]
  cases b with
  | true => exact ⟨_, rfl, by simp, by simp [hemit]⟩
  | false => exact ⟨_, rfl, by simp [hcur, hnull], by simp [hemit]⟩

/-- The statement `is_current_sets_current` for the Paris location while no
location is current: it becomes the current one. -/
theorem is_current_sets_current_witness :
    ∃ st2, clock_location_is_current sampleZones parisLocation noCurrentLocation
        = some (true, st2) ∧
      st2.current_location = (if true = true then some parisLocation.addr else none) ∧
      st2.set_current_emitted =
        (if true = true then noCurrentLocation.set_current_emitted ++ [parisLocation.addr]
          else noCurrentLocation.set_current_emitted) :=
  is_current_sets_current sampleZones parisLocation noCurrentLocation noCurrentLocation true
    rfl rfl

/-- C9: `clock_location_get_offset (loc)` is `W (location zone) - W (system
zone)`, `W` being the seconds west of UTC in standard time less 3600 while
daylight saving time is in effect; it is 0 when the two zones have the same
standard offset and the same daylight saving state. -/
theorem get_offset_is_difference (zones : ZoneTable) (loc : ClockLocation)
    (st : LocationState) (tz : String) (htz : loc.priv.timezone = some tz) :
    (clock_location_get_offset zones loc st).map Prod.fst
        = some (secondsWest (zones (some tz)) - secondsWest (zones none)) ∧
    ((zones (some tz)).timezone = (zones none).timezone →
      ((zones (some tz)).tm_isdst > 0 ↔ (zones none).tm_isdst > 0) →
      (clock_location_get_offset zones loc st).map Prod.fst = some 0) := by
  rw [clock_location_get_offset_eq zones loc st tz htz]
  refine ⟨rfl, fun h1 h2 => ?_⟩
  simp only [Option.map_some', Option.some.injEq, secondsWest, h1]
  by_cases hd : (zones none).tm_isdst > 0
  · rw [if_pos (h2.2 hd), if_pos hd]; omega
  · rw [if_neg (fun h => hd (h2.1 h)), if_neg hd]; omega

/-- The statement `get_offset_is_difference` for the Tokyo location: nine
hours east against a system two hours east of UTC gives `-25200`. -/
theorem get_offset_is_difference_witness :
    (clock_location_get_offset sampleZones tokyoLocation noCurrentLocation).map Prod.fst
      = some (secondsWest (sampleZones (some "Asia/Tokyo")) - secondsWest (sampleZones none)) ∧
    secondsWest (sampleZones (some "Asia/Tokyo")) - secondsWest (sampleZones none) = -25200 :=
  ⟨(get_offset_is_difference sampleZones tokyoLocation noCurrentLocation "Asia/Tokyo" rfl).1,
   by decide⟩

/-! ## Properties : clock location tiles -/

/-- The three visibility flags after `clock_location_tile_refresh`: only the
first statement of the function touches them. -/
theorem refresh_flags (ans : RefreshAnswers) (force_refresh : Bool)
    (priv : ClockLocationTilePrivate) :
    (clock_location_tile_refresh ans force_refresh priv).current_button
        = (if ans.is_current = true then false
           else if priv.current_marker = true then false else priv.current_button) ∧
    (clock_location_tile_refresh ans force_refresh priv).current_marker
        = (if ans.is_current = true then true
           else if priv.current_marker = true then false else priv.current_marker) ∧
    (clock_location_tile_refresh ans force_refresh priv).current_spacer
        = (if ans.is_current = true then false
           else if priv.current_marker = true then true else priv.current_spacer) := by
  unfold clock_location_tile_refresh
  refine ⟨?_, ?_, ?_⟩ <;> (simp only []; split_ifs <;> rfl)

/-- The three visibility flags after `enter_or_leave_tile`. -/
theorem crossing_flags (event : GdkEventCrossing) (ans : CrossingAnswers)
    (priv : ClockLocationTilePrivate) :
    (enter_or_leave_tile event ans priv).2.current_button
        = (if event.mode ≠ GDK_CROSSING_NORMAL then priv.current_button
           else if ans.is_current = true then false
           else if event.type = GDK_ENTER_NOTIFY then
             decide ((if ans.is_current_timezone = true then 2
               else ans.can_set_system_timezone) ≠ 0)
           else if event.detail ≠ GDK_NOTIFY_INFERIOR then false
           else priv.current_button) ∧
    (enter_or_leave_tile event ans priv).2.current_marker
        = (if event.mode ≠ GDK_CROSSING_NORMAL then priv.current_marker
           else if ans.is_current = true then true
           else if event.type = GDK_ENTER_NOTIFY then false
           else if event.detail ≠ GDK_NOTIFY_INFERIOR then false
           else priv.current_marker) ∧
    (enter_or_leave_tile event ans priv).2.current_spacer
        = (if event.mode ≠ GDK_CROSSING_NORMAL then priv.current_spacer
           else if ans.is_current = true then false
           else if event.type = GDK_ENTER_NOTIFY then
             decide ((if ans.is_current_timezone = true then 2
               else ans.can_set_system_timezone) = 0)
           else if event.detail ≠ GDK_NOTIFY_INFERIOR then true
           else priv.current_spacer) := by
  unfold enter_or_leave_tile
  refine ⟨?_, ?_, ?_⟩ <;> (simp only []; split_ifs <;> simp_all)

theorem refresh_exactly_one_after (ans : RefreshAnswers) (force_refresh : Bool)
    (priv : ClockLocationTilePrivate)
    (h : visibleCount priv = 1 ∨ visibleCount priv = 3) :
    visibleCount (clock_location_tile_refresh ans force_refresh priv) = 1 := by
  obtain ⟨hb, hm, hs⟩ := refresh_flags ans force_refresh priv
  unfold visibleCount at h ⊢
  rw [hb, hm, hs]
  revert h
  generalize ans.is_current = c
  generalize priv.current_button = b
  generalize priv.current_marker = m
  generalize priv.current_spacer = sp
  revert c b m sp
  decide

theorem crossing_keeps_exactly_one (event : GdkEventCrossing) (ans : CrossingAnswers)
    (priv : ClockLocationTilePrivate) (h : visibleCount priv = 1) :
    visibleCount (enter_or_leave_tile event ans priv).2 = 1 := by
  obtain ⟨hb, hm, hs⟩ := crossing_flags event ans priv
  unfold visibleCount at h ⊢
  rw [hb, hm, hs]
  split_ifs <;> simp_all

theorem crossing_keeps_one_or_three (event : GdkEventCrossing) (ans : CrossingAnswers)
    (priv : ClockLocationTilePrivate)
    (h : visibleCount priv = 1 ∨ visibleCount priv = 3) :
    visibleCount (enter_or_leave_tile event ans priv).2 = 1 ∨
      visibleCount (enter_or_leave_tile event ans priv).2 = 3 := by
  obtain ⟨hb, hm, hs⟩ := crossing_flags event ans priv
  unfold visibleCount at h ⊢
  rw [hb, hm, hs]
  split_ifs <;> simp_all

theorem apply_keeps_exactly_one (op : TileOp) (priv : ClockLocationTilePrivate)
    (h : visibleCount priv = 1) : visibleCount (op.apply priv) = 1 := by
  cases op with
  | crossing event ans => exact crossing_keeps_exactly_one event ans priv h
  | refresh ans force_refresh => exact refresh_exactly_one_after ans force_refresh priv (Or.inl h)

theorem runOps_keeps_exactly_one (ops : List TileOp) :
    ∀ priv : ClockLocationTilePrivate, visibleCount priv = 1 →
      visibleCount (runOps ops priv) = 1 := by
  induction ops with
  | nil => intro priv h; exact h
  | cons op ops ih =>
    intro priv h
    exact ih (op.apply priv) (apply_keeps_exactly_one op priv h)

theorem runOps_keeps_one_or_three (ops : List TileOp) :
    ∀ priv : ClockLocationTilePrivate, visibleCount priv = 1 ∨ visibleCount priv = 3 →
      visibleCount (runOps ops priv) = 1 ∨ visibleCount (runOps ops priv) = 3 := by
  induction ops with
  | nil => intro priv h; exact h
  | cons op ops ih =>
    intro priv h
    apply ih (op.apply priv)
    cases op with
    | crossing event ans => exact crossing_keeps_one_or_three event ans priv h
    | refresh ans force_refresh =>
      exact Or.inl (refresh_exactly_one_after ans force_refresh priv h)

theorem runOps_append (ops1 ops2 : List TileOp) (priv : ClockLocationTilePrivate) :
    runOps (ops1 ++ ops2) priv = runOps ops2 (runOps ops1 priv) := by
  simp [runOps, List.foldl_append]

/-- C8, refuted as stated: the tile that `clock_location_tile_new` returns has
button, marker and spacer all visible, and it still has after a leave event
with detail `GDK_NOTIFY_INFERIOR` and after a crossing event whose mode is not
`GDK_CROSSING_NORMAL`. -/
theorem new_tile_shows_all_three :
    ¬ (visibleCount (runOps [] (clock_location_tile_new parisLocation
          ClockFaceSize.CLOCK_FACE_SMALL)) ≤ 1) ∧
    visibleCount (runOps [] (clock_location_tile_new parisLocation
          ClockFaceSize.CLOCK_FACE_SMALL)) = 3 ∧
    visibleCount (runOps
        [TileOp.crossing ⟨GDK_LEAVE_NOTIFY, GDK_CROSSING_NORMAL, GDK_NOTIFY_INFERIOR⟩
            ⟨false, false, 0⟩,
         TileOp.crossing ⟨GDK_ENTER_NOTIFY, 1, 0⟩ ⟨false, false, 0⟩]
        (clock_location_tile_new parisLocation ClockFaceSize.CLOCK_FACE_SMALL)) = 3 := by
  refine ⟨by decide, by decide, by decide⟩

theorem crossing_sets_exactly_one (event : GdkEventCrossing) (ans : CrossingAnswers)
    (priv : ClockLocationTilePrivate)
    (h : (TileOp.crossing event ans).setsVisibility = true) :
    visibleCount (enter_or_leave_tile event ans priv).2 = 1 := by
  obtain ⟨hb, hm, hs⟩ := crossing_flags event ans priv
  simp only [TileOp.setsVisibility, Bool.and_eq_true, Bool.or_eq_true, decide_eq_true_eq] at h
  obtain ⟨hmode, hbranch⟩ := h
  have hn : ¬ event.mode ≠ GDK_CROSSING_NORMAL := not_not.2 hmode
  unfold visibleCount
  rw [hb, hm, hs, if_neg hn, if_neg hn, if_neg hn]
  by_cases hcur : ans.is_current = true
  · simp [hcur]
  · by_cases htype : event.type = GDK_ENTER_NOTIFY
    · simp only [if_neg hcur, if_pos htype]
      by_cases hcan : (if ans.is_current_timezone = true then (2 : Int)
          else ans.can_set_system_timezone) = 0
      · simp [hcan]
      · simp [hcan]
    · have hdet : event.detail ≠ GDK_NOTIFY_INFERIOR := by
        rcases hbranch with (h1 | h1) | h1
        · exact absurd h1 hcur
        · exact absurd h1 htype
        · exact h1
      simp [hcur, htype, hdet]

theorem crossing_without_branch_keeps_tile (event : GdkEventCrossing) (ans : CrossingAnswers)
    (priv : ClockLocationTilePrivate)
    (h : (TileOp.crossing event ans).setsVisibility = false) :
    (enter_or_leave_tile event ans priv).2 = priv := by
  unfold enter_or_leave_tile
  by_cases hmode : event.mode ≠ GDK_CROSSING_NORMAL
  · rw [if_pos hmode]
  · have hmode2 : event.mode = GDK_CROSSING_NORMAL := not_not.1 hmode
    simp only [TileOp.setsVisibility, hmode2, decide_True, Bool.true_and, Bool.or_eq_false_iff,
      decide_eq_false_iff_not, not_not] at h
    obtain ⟨⟨hcur, htype⟩, hdet⟩ := h
    have hdet2 : ¬ event.detail ≠ GDK_NOTIFY_INFERIOR := not_not.2 hdet
    have hcur2 : ¬ ans.is_current = true := by simp [hcur]
    rw [if_neg hmode, if_neg hcur2, if_neg htype, if_neg hdet2]

theorem apply_sets_exactly_one (op : TileOp) (priv : ClockLocationTilePrivate)
    (hop : op.setsVisibility = true)
    (h : visibleCount priv = 1 ∨ visibleCount priv = 3) :
    visibleCount (op.apply priv) = 1 := by
  cases op with
  | crossing event ans => exact crossing_sets_exactly_one event ans priv hop
  | refresh ans force_refresh => exact refresh_exactly_one_after ans force_refresh priv h

theorem runOps_without_branch_keeps_tile (ops : List TileOp) :
    ∀ priv : ClockLocationTilePrivate, (∀ op ∈ ops, op.setsVisibility = false) →
      runOps ops priv = priv := by
  induction ops with
  | nil => intro priv _; rfl
  | cons op ops ih =>
    intro priv h
    have hop : op.setsVisibility = false := h op (by simp)
    have hstep : op.apply priv = priv := by
      cases op with
      | crossing event ans => exact crossing_without_branch_keeps_tile event ans priv hop
      | refresh ans force_refresh => simp [TileOp.setsVisibility] at hop
    have hrest : runOps ops priv = priv := ih priv (fun o ho => h o (by simp [ho]))
    calc runOps (op :: ops) priv = runOps ops (op.apply priv) := rfl
      _ = runOps ops priv := by rw [hstep]
      _ = priv := hrest

/-- C8, amended: the tile that `clock_location_tile_new` returns has
`current_button`, `current_marker` and `current_spacer` all visible, and every
tile state reached from it by crossing events and `clock_location_tile_refresh`
calls has either exactly one or all three of them visible.  At most one is
visible from the first `clock_location_tile_refresh` call or the first crossing
event on which `enter_or_leave_tile` takes a hide-and-show branch on; all three
stay visible as long as there has been neither. -/
theorem at_most_one_visible_once_settled (loc : ClockLocation) (size : ClockFaceSize)
    (ops : List TileOp) :
    visibleCount (clock_location_tile_new loc size) = 3 ∧
    (visibleCount (runOps ops (clock_location_tile_new loc size)) = 1 ∨
      visibleCount (runOps ops (clock_location_tile_new loc size)) = 3) ∧
    ((∃ op ∈ ops, op.setsVisibility = true) →
      visibleCount (runOps ops (clock_location_tile_new loc size)) ≤ 1) ∧
    ((∀ op ∈ ops, op.setsVisibility = false) →
      visibleCount (runOps ops (clock_location_tile_new loc size)) = 3) := by
  have h0 : visibleCount (clock_location_tile_new loc size) = 1 ∨
      visibleCount (clock_location_tile_new loc size) = 3 := Or.inr rfl
  refine ⟨rfl, runOps_keeps_one_or_three ops _ h0, ?_, ?_⟩
  · rintro ⟨op, hmem, hop⟩
    obtain ⟨before, after, hsplit⟩ := List.append_of_mem hmem
    have h1 := runOps_keeps_one_or_three before _ h0
    have h2 := apply_sets_exactly_one op _ hop h1
    have h3 := runOps_keeps_exactly_one after _ h2
    rw [hsplit, runOps_append]
    exact le_of_eq h3
  · intro hall
    rw [runOps_without_branch_keeps_tile ops _ hall]
    rfl

/-- The statement `at_most_one_visible_once_settled` on a new tile after one
enter event of mode `GDK_CROSSING_NORMAL` and no refresh: at most one of the
three is visible. -/
theorem at_most_one_visible_once_settled_witness :
    (∃ op ∈ [TileOp.crossing ⟨GDK_ENTER_NOTIFY, GDK_CROSSING_NORMAL, 0⟩ ⟨false, false, 0⟩],
      op.setsVisibility = true) ∧
    visibleCount (runOps
        [TileOp.crossing ⟨GDK_ENTER_NOTIFY, GDK_CROSSING_NORMAL, 0⟩ ⟨false, false, 0⟩]
        (clock_location_tile_new parisLocation ClockFaceSize.CLOCK_FACE_SMALL)) ≤ 1 :=
  ⟨⟨_, List.mem_singleton.2 rfl, by decide⟩,
   (at_most_one_visible_once_settled parisLocation ClockFaceSize.CLOCK_FACE_SMALL
      [TileOp.crossing ⟨GDK_ENTER_NOTIFY, GDK_CROSSING_NORMAL, 0⟩ ⟨false, false, 0⟩]).2.2.1
      ⟨_, List.mem_singleton.2 rfl, by decide⟩⟩

/-- C10: exactly-one-visible is preserved by every tile operation.  From a
tile on which exactly one of `current_button`, `current_marker` and
`current_spacer` is visible, every `enter_or_leave_tile` event, whatever its
mode, type and detail and whatever the answers of `clock_location_is_current`,
`clock_location_is_current_timezone` and `can_set_system_timezone`, and every
`clock_location_tile_refresh` call leave exactly one of the three visible. -/
theorem exactly_one_visible_preserved (priv : ClockLocationTilePrivate)
    (h : visibleCount priv = 1) :
    (∀ (event : GdkEventCrossing) (ans : CrossingAnswers),
      visibleCount (enter_or_leave_tile event ans priv).2 = 1) ∧
    (∀ (ans : RefreshAnswers) (force_refresh : Bool),
      visibleCount (clock_location_tile_refresh ans force_refresh priv) = 1) :=
  ⟨fun event ans => crossing_keeps_exactly_one event ans priv h,
   fun ans force_refresh => refresh_exactly_one_after ans force_refresh priv (Or.inl h)⟩

/-- The statement `exactly_one_visible_preserved` on the tile that shows only
its spacer. -/
theorem exactly_one_visible_preserved_witness :
    visibleCount spacerTile = 1 ∧
    (∀ (event : GdkEventCrossing) (ans : CrossingAnswers),
      visibleCount (enter_or_leave_tile event ans spacerTile).2 = 1) ∧
    (∀ (ans : RefreshAnswers) (force_refresh : Bool),
      visibleCount (clock_location_tile_refresh ans force_refresh spacerTile) = 1) :=
  ⟨by decide, exactly_one_visible_preserved spacerTile (by decide)⟩

/-- C11: the first `clock_location_tile_refresh` on the tile that
`clock_location_tile_new` returns, on which `clock_location_tile_fill` has
shown button, marker and spacer, leaves exactly one of the three visible: the
marker if the location is current, the spacer otherwise. -/
theorem first_refresh_leaves_one (loc : ClockLocation) (size : ClockFaceSize)
    (ans : RefreshAnswers) (force_refresh : Bool) :
    visibleCount (clock_location_tile_new loc size) = 3 ∧
    visibleCount
      (clock_location_tile_refresh ans force_refresh (clock_location_tile_new loc size)) = 1 ∧
    (clock_location_tile_refresh ans force_refresh
        (clock_location_tile_new loc size)).current_marker = ans.is_current ∧
    (clock_location_tile_refresh ans force_refresh
        (clock_location_tile_new loc size)).current_spacer = !ans.is_current ∧
    (clock_location_tile_refresh ans force_refresh
        (clock_location_tile_new loc size)).current_button = false := by
  obtain ⟨hb, hm, hs⟩ := refresh_flags ans force_refresh (clock_location_tile_new loc size)
  refine ⟨rfl, refresh_exactly_one_after ans force_refresh _ (Or.inr rfl), ?_, ?_, ?_⟩
  · rw [hm]; cases ans.is_current <;> rfl
  · rw [hs]; cases ans.is_current <;> rfl
  · rw [hb]; cases ans.is_current <;> rfl

theorem enter_or_leave_tile_returns_true (event : GdkEventCrossing) (ans : CrossingAnswers)
    (priv : ClockLocationTilePrivate) : (enter_or_leave_tile event ans priv).1 = true := by
  unfold enter_or_leave_tile
  simp only []
  split_ifs <;> rfl

/-- C12: for every crossing event of mode `GDK_CROSSING_NORMAL` on a tile
whose location is the current one, whatever the event type, its detail and the
visibility of the three widgets before, `enter_or_leave_tile` ends with
`current_marker` visible and `current_button` and `current_spacer` hidden, and
returns `TRUE`. -/
theorem crossing_on_current_shows_marker (event : GdkEventCrossing) (ans : CrossingAnswers)
    (priv : ClockLocationTilePrivate)
    (hmode : event.mode = GDK_CROSSING_NORMAL) (hcur : ans.is_current = true) :
    (enter_or_leave_tile event ans priv).1 = true ∧
    (enter_or_leave_tile event ans priv).2.current_marker = true ∧
    (enter_or_leave_tile event ans priv).2.current_button = false ∧
    (enter_or_leave_tile event ans priv).2.current_spacer = false := by
  obtain ⟨hb, hm, hs⟩ := crossing_flags event ans priv
  have hn : ¬ event.mode ≠ GDK_CROSSING_NORMAL := not_not.2 hmode
  refine ⟨enter_or_leave_tile_returns_true event ans priv, ?_, ?_, ?_⟩
  · rw [hm, if_neg hn, if_pos hcur]
  · rw [hb, if_neg hn, if_pos hcur]
  · rw [hs, if_neg hn, if_pos hcur]

/-- The statement `crossing_on_current_shows_marker` for a leave event with
detail `GDK_NOTIFY_INFERIOR` on a new tile, all three widgets visible before. -/
theorem crossing_on_current_shows_marker_witness :
    (enter_or_leave_tile ⟨GDK_LEAVE_NOTIFY, GDK_CROSSING_NORMAL, GDK_NOTIFY_INFERIOR⟩
        ⟨true, false, 0⟩
        (clock_location_tile_new parisLocation ClockFaceSize.CLOCK_FACE_SMALL)).1 = true ∧
    (enter_or_leave_tile ⟨GDK_LEAVE_NOTIFY, GDK_CROSSING_NORMAL, GDK_NOTIFY_INFERIOR⟩
        ⟨true, false, 0⟩
        (clock_location_tile_new parisLocation
          ClockFaceSize.CLOCK_FACE_SMALL)).2.current_marker = true ∧
    (enter_or_leave_tile ⟨GDK_LEAVE_NOTIFY, GDK_CROSSING_NORMAL, GDK_NOTIFY_INFERIOR⟩
        ⟨true, false, 0⟩
        (clock_location_tile_new parisLocation
          ClockFaceSize.CLOCK_FACE_SMALL)).2.current_button = false ∧
    (enter_or_leave_tile ⟨GDK_LEAVE_NOTIFY, GDK_CROSSING_NORMAL, GDK_NOTIFY_INFERIOR⟩
        ⟨true, false, 0⟩
        (clock_location_tile_new parisLocation
          ClockFaceSize.CLOCK_FACE_SMALL)).2.current_spacer = false :=
  crossing_on_current_shows_marker
    ⟨GDK_LEAVE_NOTIFY, GDK_CROSSING_NORMAL, GDK_NOTIFY_INFERIOR⟩ ⟨true, false, 0⟩
    (clock_location_tile_new parisLocation ClockFaceSize.CLOCK_FACE_SMALL) rfl rfl

theorem lexLe_minuteFields (a b : Tm) :
    lexLe (minuteFields a) (minuteFields b) = true ↔
      (a.tm_year < b.tm_year ∨ (a.tm_year = b.tm_year ∧
        (a.tm_mon < b.tm_mon ∨ (a.tm_mon = b.tm_mon ∧
          (a.tm_mday < b.tm_mday ∨ (a.tm_mday = b.tm_mday ∧
            (a.tm_hour < b.tm_hour ∨ (a.tm_hour = b.tm_hour ∧
              a.tm_min ≤ b.tm_min)))))))) := by
  simp only [minuteFields, lexLe, Bool.or_eq_true, Bool.and_eq_true, decide_eq_true_eq,
    Bool.or_false, Bool.and_true, and_true]
  omega

theorem lexLe_secondFields (a b : Tm) :
    lexLe (secondFields a) (secondFields b) = true ↔
      (a.tm_year < b.tm_year ∨ (a.tm_year = b.tm_year ∧
        (a.tm_mon < b.tm_mon ∨ (a.tm_mon = b.tm_mon ∧
          (a.tm_mday < b.tm_mday ∨ (a.tm_mday = b.tm_mday ∧
            (a.tm_hour < b.tm_hour ∨ (a.tm_hour = b.tm_hour ∧
              (a.tm_min < b.tm_min ∨ (a.tm_min = b.tm_min ∧
                a.tm_sec ≤ b.tm_sec)))))))))) := by
  simp only [secondFields, lexLe, Bool.or_eq_true, Bool.and_eq_true, decide_eq_true_eq,
    Bool.or_false, Bool.and_true, and_true]
  omega

theorem minuteFields_ne (a b : Tm) :
    minuteFields a ≠ minuteFields b ↔
      ¬ (a.tm_year = b.tm_year ∧ a.tm_mon = b.tm_mon ∧ a.tm_mday = b.tm_mday ∧
          a.tm_hour = b.tm_hour ∧ a.tm_min = b.tm_min) := by
  simp [minuteFields]

theorem secondFields_ne (a b : Tm) :
    secondFields a ≠ secondFields b ↔
      ¬ (a.tm_year = b.tm_year ∧ a.tm_mon = b.tm_mon ∧ a.tm_mday = b.tm_mday ∧
          a.tm_hour = b.tm_hour ∧ a.tm_min = b.tm_min ∧ a.tm_sec = b.tm_sec) := by
  simp [secondFields]

theorem clock_needs_face_refresh_iff (priv : ClockLocationTilePrivate) (now : Tm) :
    clock_needs_face_refresh priv now = true ↔
      ((now.tm_year > priv.last_refresh.tm_year
          ∨ now.tm_mon > priv.last_refresh.tm_mon
          ∨ now.tm_mday > priv.last_refresh.tm_mday
          ∨ now.tm_hour > priv.last_refresh.tm_hour
          ∨ now.tm_min > priv.last_refresh.tm_min) ∨
        (priv.size = ClockFaceSize.CLOCK_FACE_LARGE
          ∧ now.tm_sec > priv.last_refresh.tm_sec)) := by
  unfold clock_needs_face_refresh
  split_ifs with h1 h2
  · simp [h1]
  · simp [h2]
  · simp [h1, h2]

/-- C13: when `now` is not earlier than `last_refresh` in lexicographic order
on `(tm_year, tm_mon, tm_mday, tm_hour, tm_min)`, `clock_needs_face_refresh` on
a tile whose face is not `CLOCK_FACE_LARGE` returns `TRUE` if and only if `now`
differs from `last_refresh` in one of those five fields; on a
`CLOCK_FACE_LARGE` tile the same holds with `tm_sec` as a sixth, least
significant field. -/
theorem face_refresh_iff_differs (priv : ClockLocationTilePrivate) (now : Tm) :
    (priv.size ≠ ClockFaceSize.CLOCK_FACE_LARGE →
      lexLe (minuteFields priv.last_refresh) (minuteFields now) = true →
      (clock_needs_face_refresh priv now = true ↔
        minuteFields now ≠ minuteFields priv.last_refresh)) ∧
    (priv.size = ClockFaceSize.CLOCK_FACE_LARGE →
      lexLe (secondFields priv.last_refresh) (secondFields now) = true →
      (clock_needs_face_refresh priv now = true ↔
        secondFields now ≠ secondFields priv.last_refresh)) := by
  constructor
  · intro hsize hle
    rw [lexLe_minuteFields] at hle
    rw [clock_needs_face_refresh_iff, minuteFields_ne]
    constructor
    · rintro (h | h)
      · omega
      · exact absurd h.1 hsize
    · intro h
      left
      omega
  · intro hsize hle
    rw [lexLe_secondFields] at hle
    rw [clock_needs_face_refresh_iff, secondFields_ne]
    constructor
    · rintro (h | h) <;> omega
    · intro h
      by_cases h5 : now.tm_year = priv.last_refresh.tm_year ∧
          now.tm_mon = priv.last_refresh.tm_mon ∧ now.tm_mday = priv.last_refresh.tm_mday ∧
          now.tm_hour = priv.last_refresh.tm_hour ∧ now.tm_min = priv.last_refresh.tm_min
      · right
        exact ⟨hsize, by omega⟩
      · left
        omega

/-- The statement `face_refresh_iff_differs` on a small and on a large tile
last refreshed at 09:59:30: at 10:00:00 both need a refresh, and at 09:59:45
the large one does while the small one does not. -/
theorem face_refresh_iff_differs_witness :
    (clock_needs_face_refresh smallTileAt0959 ⟨0, 0, 10, 5, 2, 124, 2, 64, 0⟩ = true ↔
      minuteFields ⟨0, 0, 10, 5, 2, 124, 2, 64, 0⟩ ≠ minuteFields smallTileAt0959.last_refresh) ∧
    clock_needs_face_refresh smallTileAt0959 ⟨0, 0, 10, 5, 2, 124, 2, 64, 0⟩ = true ∧
    clock_needs_face_refresh smallTileAt0959 ⟨45, 59, 9, 5, 2, 124, 2, 64, 0⟩ = false ∧
    (clock_needs_face_refresh largeTileAt0959 ⟨45, 59, 9, 5, 2, 124, 2, 64, 0⟩ = true ↔
      secondFields ⟨45, 59, 9, 5, 2, 124, 2, 64, 0⟩ ≠ secondFields largeTileAt0959.last_refresh) ∧
    clock_needs_face_refresh largeTileAt0959 ⟨45, 59, 9, 5, 2, 124, 2, 64, 0⟩ = true :=
  ⟨(face_refresh_iff_differs smallTileAt0959 ⟨0, 0, 10, 5, 2, 124, 2, 64, 0⟩).1
      (by decide) (by decide),
   by decide, by decide,
   (face_refresh_iff_differs largeTileAt0959 ⟨45, 59, 9, 5, 2, 124, 2, 64, 0⟩).2
      (by decide) (by decide),
   by decide⟩

/-- C14, evaluated where it fails: an offset of half an hour ahead and one of
half an hour behind, both whole numbers of minutes, are rendered by
`format_time` as the same text whatever the time, timezone name and clock
format, here `+0:30`; the hours field `offset / 3600` is 0 for both and
carries the only sign that is printed. -/
theorem format_time_loses_sign_below_an_hour (local_wday : Int)
    (strftime : String → Tm → Option String) (g_locale_to_utf8 : String → Option String)
    (now : Tm) (tzname : String) (clock_format : ClockFormat) :
    format_time local_wday strftime g_locale_to_utf8 now tzname clock_format 1800
      = format_time local_wday strftime g_locale_to_utf8 now tzname clock_format (-1800) ∧
    format_time 2 (fun _ _ => some "10:00") some ⟨0, 0, 10, 5, 2, 124, 2, 64, 0⟩ "IST"
      ClockFormat.CLOCK_FORMAT_24 1800 = some "10:00 <small>IST +0:30</small>" ∧
    format_time 2 (fun _ _ => some "10:00") some ⟨0, 0, 10, 5, 2, 124, 2, 64, 0⟩ "IST"
      ClockFormat.CLOCK_FORMAT_24 (-1800) = some "10:00 <small>IST +0:30</small>" ∧
    Int.tmod 1800 60 = 0 ∧ Int.tmod (-1800) 60 = 0 ∧ (1800 : Int) ≠ -1800 := by
  refine ⟨rfl, by decide, by decide, by decide, by decide, by decide⟩

/-- What the two functions leave when the key is writable: the stored list
with `value` appended, and then with `value` removed again. -/
theorem append_then_remove_all (fresh : Option String) (settings : GSettings)
    (key : String) (value : String) (hw : settings.writable key = true) :
    (panel_gsettings_remove_all_from_strv
        (panel_gsettings_append_strv fresh settings key (some value)).2 key (some value))
      = (true, { settings with
          strv := fun k =>
            if k = key then
              (settings.strv key ++ [value]).filter (fun s => decide (some s ≠ some value))
            else (if k = key then settings.strv key ++ [value] else settings.strv k) }) := by
  have hs : ∀ l : List String, strvStrings (List.map some l ++ [none]) = l := by
    intro l
    simp [strvStrings_map_some_append, strvStrings]
  have hs2 : strvStrings (List.map some (settings.strv key) ++ [some value, none])
      = settings.strv key ++ [value] := by
    simp [strvStrings_map_some_append, strvStrings]
  rw [panel_gsettings_append_strv_eq]
  simp only [g_settings_set_strv, hw, if_true, panel_gsettings_remove_all_from_strv,
    g_settings_get_strv, remove_all_loop_eq, List.nil_append, hs, hs2]

/-- C15: append followed by remove-all is a round trip.  For the list stored
under `key` and a non-NULL `value` that does not occur in it,
`panel_gsettings_append_strv (key, value)` followed by
`panel_gsettings_remove_all_from_strv (key, value)`, both writes succeeding,
leaves exactly that list under `key`. -/
theorem append_remove_all_round_trip (fresh : Option String) (settings : GSettings)
    (key : String) (value : String)
    (hnew : value ∉ settings.strv key)
    (hw1 : (panel_gsettings_append_strv fresh settings key (some value)).1 = true)
    (hw2 : (panel_gsettings_remove_all_from_strv
        (panel_gsettings_append_strv fresh settings key (some value)).2 key
        (some value)).1 = true) :
    (panel_gsettings_remove_all_from_strv
        (panel_gsettings_append_strv fresh settings key (some value)).2 key
        (some value)).2.strv key = settings.strv key := by
  have _ := hw2
  have hw : settings.writable key = true := by
    rw [panel_gsettings_append_strv_eq] at hw1
    unfold g_settings_set_strv at hw1
    by_cases h : settings.writable key = true
    · exact h
    · rw [if_neg h] at hw1
      exact absurd hw1 (by simp)
  rw [append_then_remove_all fresh settings key value hw]
  simp only [if_true]
  rw [List.filter_append]
  have h1 : (settings.strv key).filter (fun s => decide (some s ≠ some value))
      = settings.strv key := by
    rw [List.filter_eq_self]
    intro s hs
    have : s ≠ value := fun h => hnew (h ▸ hs)
    simpa using this
  rw [h1]
  simp

/-- The statement `append_remove_all_round_trip` on the store holding `[a, b]`
under the key `k`: appending `c` and removing every `c` leaves `[a, b]`. -/
theorem append_remove_all_round_trip_witness :
    (panel_gsettings_remove_all_from_strv
        (panel_gsettings_append_strv none sampleSettings "k" (some "c")).2 "k"
        (some "c")).2.strv "k" = sampleSettings.strv "k" ∧
    sampleSettings.strv "k" = ["a", "b"] :=
  ⟨append_remove_all_round_trip none sampleSettings "k" "c" (by decide) (by decide)
     (by decide), rfl⟩

end LattePanel
